import Mathlib

/-!
Verification of the Reminder Notification Scheduler of the
AI-Powered Medical Tracking Reminders And Engagement Kit front-end.

The embedding below follows the JavaScript source (`script.js`,
delivered here as `src/unnamed/part_000`):

* `checkReminders` (lines 507-551): the per-tick scan over the cached
  `reminders` array.  `timeDiff = new Date(reminder.date_time) - now`
  is the signed millisecond difference `dueAt - now`; the PreAlert
  branch requires `timeDiff > 0 && timeDiff <= 300000 &&
  !reminder.notified && !hasPlayedSound.has(id + "-5min")`, and the
  DueAlert `else if` branch requires `timeDiff > -60000 && timeDiff <= 0
  && !hasPlayedSound.has(id + "-now")`.  Each firing branch plays a
  sound, shows a browser notification, issues the best-effort
  `PUT /reminders/{id}/notify` call and marks its idempotency key; only
  the PreAlert branch additionally sets `reminder.notified = true`.
* `deleteReminder` (lines 483-505): deletes the two idempotency keys of
  the reminder and refreshes the cache; the refreshed cache no longer
  contains the deleted reminder.
* `sendNotification` / `createNotification` /
  `requestNotificationPermission` (lines 554-608): the browser
  permission handling.
* `playNotificationSound` (lines 78-139): tone synthesis with a tiered
  fallback, all failures swallowed by try/catch.

Timestamps are modelled as `Int` milliseconds, the in-memory `Set`
`hasPlayedSound` as a list of `(id, threshold)` keys, and a tick's side
effects are reified as a list of `Dispatch` records.
-/

namespace MedKit

/-- The two alert thresholds; the source encodes them as the string
suffixes `"-5min"` and `"-now"` of the `hasPlayedSound` keys. -/
inductive ThresholdKind
  | pre
  | due
deriving DecidableEq, Repr

/-- The first argument of `playNotificationSound`: `'reminder'` for the
standard chime, `'urgent'` for the rapid double beep. -/
inductive SoundType
  | reminder
  | urgent
deriving DecidableEq, Repr

/-- A cached reminder record, as returned by `GET /reminders`
(`{id, title, date_time, notes, notified}`); `date_time` becomes the
millisecond timestamp `dueAt`. -/
structure Reminder where
  id : Nat
  title : String
  dueAt : Int
  notified : Bool
  notes : Option String
deriving DecidableEq, Repr

/-- An idempotency key: the source stores the string `id + "-5min"` or
`id + "-now"` in the `hasPlayedSound` set. -/
abbrev Key := Nat × ThresholdKind

/-- The scheduler state touched by a tick: the cached `reminders` array
and the `hasPlayedSound` set. -/
structure SchedState where
  reminders : List Reminder
  hasPlayedSound : List Key
deriving DecidableEq, Repr

/-- One alert actually fired by a tick: the sound played, the desktop
notification title/body, and the id sent to `PUT /reminders/{id}/notify`
(the remote acknowledgement). -/
structure Dispatch where
  remId : Nat
  threshold : ThresholdKind
  sound : SoundType
  notifTitle : String
  notifBody : String
  ackId : Nat
deriving DecidableEq, Repr

/-- The idempotency key of a dispatch. -/
def keyOf (d : Dispatch) : Key := (d.remId, d.threshold)

/-- Guard of the PreAlert branch of `checkReminders`:
`timeDiff > 0 && timeDiff <= 300000 && !reminder.notified &&
!hasPlayedSound.has(reminder.id + "-5min")`. -/
def preCond (tr : List Key) (now : Int) (r : Reminder) : Prop :=
  0 < r.dueAt - now ∧ r.dueAt - now ≤ 300000 ∧ r.notified = false ∧
    (r.id, ThresholdKind.pre) ∉ tr

instance (tr : List Key) (now : Int) (r : Reminder) : Decidable (preCond tr now r) := by
  unfold preCond; exact inferInstance

/-- Guard of the DueAlert branch of `checkReminders`:
`timeDiff > -60000 && timeDiff <= 0 &&
!hasPlayedSound.has(reminder.id + "-now")`. -/
def dueCond (tr : List Key) (now : Int) (r : Reminder) : Prop :=
  -60000 < r.dueAt - now ∧ r.dueAt - now ≤ 0 ∧
    (r.id, ThresholdKind.due) ∉ tr

instance (tr : List Key) (now : Int) (r : Reminder) : Decidable (dueCond tr now r) := by
  unfold dueCond; exact inferInstance

/-- The side effects of the PreAlert branch of `checkReminders`:
`playNotificationSound('reminder')`, a notification whose body is
`"Reminder in 5 minutes: " + title`, and the acknowledgement
`PUT /reminders/{id}/notify`. -/
def preDispatch (r : Reminder) : Dispatch :=
  { remId := r.id, threshold := ThresholdKind.pre,
    sound := SoundType.reminder, notifTitle := r.title,
    notifBody := "Reminder in 5 minutes: " ++ r.title, ackId := r.id }

/-- The side effects of the DueAlert branch of `checkReminders`:
`playNotificationSound('urgent')`, a notification whose body is
`"It's time: " + title + "!"`, and the acknowledgement
`PUT /reminders/{id}/notify`. -/
def dueDispatch (r : Reminder) : Dispatch :=
  { remId := r.id, threshold := ThresholdKind.due,
    sound := SoundType.urgent, notifTitle := r.title,
    notifBody := "It's time: " ++ r.title ++ "!", ackId := r.id }

/-- The body of the `reminders.forEach` callback of `checkReminders`:
given the current tracker and the tick's `now`, process one reminder,
returning its (possibly updated) record, the updated tracker, and the
dispatches fired for it.  The DueAlert branch is the `else if` of the
PreAlert branch, and only the PreAlert branch sets
`reminder.notified = true`. -/
def checkOne (tr : List Key) (now : Int) (r : Reminder) :
    Reminder × List Key × List Dispatch :=
  if preCond tr now r then
    ({ r with notified := true }, (r.id, ThresholdKind.pre) :: tr, [preDispatch r])
  else if dueCond tr now r then
    (r, (r.id, ThresholdKind.due) :: tr, [dueDispatch r])
  else (r, tr, [])

/-- `reminders.forEach(...)` of `checkReminders`: the callback runs left
to right over the cached array, threading the shared `hasPlayedSound`
set and collecting the dispatches in order. -/
def checkList (now : Int) (tr : List Key) :
    List Reminder → List Reminder × List Key × List Dispatch
  | [] => ([], tr, [])
  | r :: rs =>
    let p := checkOne tr now r
    let q := checkList now p.2.1 rs
    (p.1 :: q.1, q.2.1, p.2.2 ++ q.2.2)

/-- `checkReminders()` on a scheduler state: one tick at wall-clock time
`now`, returning the updated state and the fired dispatches. -/
def checkReminders (now : Int) (st : SchedState) : SchedState × List Dispatch :=
  let q := checkList now st.hasPlayedSound st.reminders
  (⟨q.1, q.2.1⟩, q.2.2)

/-- `deleteReminder(id)`: removes the keys `id + "-5min"` and
`id + "-now"` from `hasPlayedSound` and refreshes the cache via
`loadReminders()`; after the backend delete the refreshed cache is the
old one without the deleted reminder. -/
def deleteReminder (i : Nat) (st : SchedState) : SchedState :=
  { reminders := st.reminders.filter (fun r => decide (r.id ≠ i)),
    hasPlayedSound :=
      st.hasPlayedSound.filter
        (fun k => decide (k ≠ (i, ThresholdKind.pre) ∧ k ≠ (i, ThresholdKind.due))) }

/-- The `setInterval(checkReminders, 60000)` loop, abstracted over the
sequence of wall-clock times at which ticks run: execute one tick per
listed time, collecting each tick's dispatches. -/
def runTicks (st : SchedState) : List Int → SchedState × List (List Dispatch)
  | [] => (st, [])
  | t :: ts =>
    let p := checkReminders t st
    let q := runTicks p.1 ts
    (q.1, p.2 :: q.2)

/-- Number of dispatches carrying the idempotency key `k`. -/
def countKey (k : Key) (ds : List Dispatch) : Nat :=
  (ds.filter (fun d => decide (keyOf d = k))).length

/-- The browser notification permission state: `Notification.permission`
is one of `"default"`, `"granted"`, `"denied"`, and `unsupported` stands
for `!("Notification" in window)`. -/
inductive PermissionState
  | unsupported
  | defaultPerm
  | granted
  | denied
deriving DecidableEq, Repr

/-- Observable effects of the notification layer: `createNotification`
was invoked (a desktop notification was created), or
`Notification.requestPermission()` was invoked. -/
inductive NotifEffect
  | created (title body : String)
  | permissionRequested
deriving DecidableEq, Repr

/-- `sendNotification(title, body)`: unsupported browsers return early;
`granted` calls `createNotification`; otherwise, unless the permission is
`denied`, `Notification.requestPermission()` is invoked and, should the
user grant it (`userGrants`), `createNotification` runs in the promise
callback. -/
def sendNotification (perm : PermissionState) (userGrants : Bool)
    (title body : String) : List NotifEffect :=
  match perm with
  | PermissionState.unsupported => []
  | PermissionState.granted => [NotifEffect.created title body]
  | PermissionState.denied => []
  | PermissionState.defaultPerm =>
    NotifEffect.permissionRequested ::
      (if userGrants then [NotifEffect.created title body] else [])

/-- `requestNotificationPermission()`: the startup path requests the
permission (after a 3s delay) only when notifications are supported and
the permission is still `"default"`, and does so once. -/
def requestNotificationPermission (perm : PermissionState) : List NotifEffect :=
  match perm with
  | PermissionState.defaultPerm => [NotifEffect.permissionRequested]
  | _ => []

/-- The notification calls a tick performs: `checkReminders` invokes
`sendNotification(reminder.title, message)` once per dispatched alert,
in dispatch order. -/
def notifyAll (perm : PermissionState) (userGrants : Bool) :
    List Dispatch → List NotifEffect
  | [] => []
  | d :: ds =>
    sendNotification perm userGrants d.notifTitle d.notifBody ++
      notifyAll perm userGrants ds

/-- Number of `Notification.requestPermission()` invocations among the
recorded effects. -/
def countRequests (effs : List NotifEffect) : Nat :=
  (effs.filter fun e => decide (e = NotifEffect.permissionRequested)).length

/-- Environment oracle for `playNotificationSound`: whether the lazily
initialized `AudioContext` is available, whether the oscillator
synthesis path throws, and whether constructing/starting the fallback
`Audio` sample throws. -/
structure AudioEnv where
  contextAvailable : Bool
  synthThrows : Bool
  fallbackThrows : Bool
deriving DecidableEq, Repr

/-- One observable attempt of `playNotificationSound`: the synthesized
tone of the given type, or the pre-encoded fallback beep sample. -/
inductive SoundStep
  | synthAttempt (ty : SoundType) (ok : Bool)
  | fallbackAttempt (ok : Bool)
deriving DecidableEq, Repr

/-- The body of the outer `try` of `playNotificationSound`: oscillator
synthesis of the urgent double beep or the standard chime.  It throws
(`Except.error`) when the audio context is unavailable or playback
throws. -/
def synthesisStep (env : AudioEnv) (ty : SoundType) :
    List SoundStep × Except Unit Unit :=
  if env.contextAvailable && !env.synthThrows then
    ([SoundStep.synthAttempt ty true], Except.ok ())
  else
    ([SoundStep.synthAttempt ty false], Except.error ())

/-- The body of the inner `try` of the catch block: play the pre-encoded
base64 `Audio` beep sample (its asynchronous `play()` rejection is
already consumed by `.catch`). -/
def fallbackStep (env : AudioEnv) : List SoundStep × Except Unit Unit :=
  if env.fallbackThrows then
    ([SoundStep.fallbackAttempt false], Except.error ())
  else
    ([SoundStep.fallbackAttempt true], Except.ok ())

/-- `playNotificationSound(type)`: try the synthesis path; on a throw,
the catch block tries the fallback sample once; a throw there is caught
by the inner catch, which only logs — the function always returns
normally (`Except.ok`). -/
def playNotificationSound (env : AudioEnv) (ty : SoundType) :
    List SoundStep × Except Unit Unit :=
  match synthesisStep env ty with
  | (s1, Except.ok _) => (s1, Except.ok ())
  | (s1, Except.error _) =>
    match fallbackStep env with
    | (s2, Except.ok _) => (s1 ++ s2, Except.ok ())
    | (s2, Except.error _) => (s1 ++ s2, Except.ok ())

/-- Number of fallback-sample attempts among the recorded sound steps. -/
def countFallback (steps : List SoundStep) : Nat :=
  (steps.filter fun s =>
    match s with
    | SoundStep.fallbackAttempt _ => true
    | _ => false).length

/-- The spec's claimed PreAlert window `(dueAt − 5min, dueAt]`, written
from the spec's words for comparison with the source's guard. -/
def specPreWindow (now dueAt : Int) : Prop :=
  dueAt - 300000 < now ∧ now ≤ dueAt

instance (now dueAt : Int) : Decidable (specPreWindow now dueAt) := by
  unfold specPreWindow; exact inferInstance

/-- The spec's claimed DueAlert window `(dueAt, dueAt + 1min]`, written
from the spec's words for comparison with the source's guard. -/
def specDueWindow (now dueAt : Int) : Prop :=
  dueAt < now ∧ now ≤ dueAt + 60000

instance (now dueAt : Int) : Decidable (specDueWindow now dueAt) := by
  unfold specDueWindow; exact inferInstance

theorem keyOf_preDispatch (r : Reminder) :
    keyOf (preDispatch r) = (r.id, ThresholdKind.pre) := rfl

theorem keyOf_dueDispatch (r : Reminder) :
    keyOf (dueDispatch r) = (r.id, ThresholdKind.due) := rfl

theorem countKey_nil (k : Key) : countKey k [] = 0 := rfl

theorem countKey_append (k : Key) (ds es : List Dispatch) :
    countKey k (ds ++ es) = countKey k ds + countKey k es := by
  simp [countKey, List.filter_append]

theorem countKey_singleton (k : Key) (d : Dispatch) :
    countKey k [d] = if keyOf d = k then 1 else 0 := by
  by_cases h : keyOf d = k <;> simp [countKey, h]

theorem checkOne_pre_eq (tr : List Key) (now : Int) (r : Reminder)
    (hp : preCond tr now r) :
    checkOne tr now r =
      ({ r with notified := true }, (r.id, ThresholdKind.pre) :: tr, [preDispatch r]) := by
  unfold checkOne
  rw [if_pos hp]

theorem checkOne_due_eq (tr : List Key) (now : Int) (r : Reminder)
    (hp : ¬ preCond tr now r) (hd : dueCond tr now r) :
    checkOne tr now r = (r, (r.id, ThresholdKind.due) :: tr, [dueDispatch r]) := by
  unfold checkOne
  rw [if_neg hp, if_pos hd]

theorem checkOne_skip_eq (tr : List Key) (now : Int) (r : Reminder)
    (hp : ¬ preCond tr now r) (hd : ¬ dueCond tr now r) :
    checkOne tr now r = (r, tr, []) := by
  unfold checkOne
  rw [if_neg hp, if_neg hd]

theorem checkOne_id (tr : List Key) (now : Int) (r : Reminder) :
    (checkOne tr now r).1.id = r.id := by
  by_cases hp : preCond tr now r
  · rw [checkOne_pre_eq tr now r hp]
  · by_cases hd : dueCond tr now r
    · rw [checkOne_due_eq tr now r hp hd]
    · rw [checkOne_skip_eq tr now r hp hd]

theorem checkOne_tr_mono (tr : List Key) (now : Int) (r : Reminder) (k : Key)
    (h : k ∈ tr) : k ∈ (checkOne tr now r).2.1 := by
  by_cases hp : preCond tr now r
  · rw [checkOne_pre_eq tr now r hp]
    exact List.mem_cons_of_mem _ h
  · by_cases hd : dueCond tr now r
    · rw [checkOne_due_eq tr now r hp hd]
      exact List.mem_cons_of_mem _ h
    · rw [checkOne_skip_eq tr now r hp hd]
      exact h

theorem checkOne_tr_new (tr : List Key) (now : Int) (r : Reminder) (k : Key)
    (h : k ∈ (checkOne tr now r).2.1) : k ∈ tr ∨ k.1 = r.id := by
  by_cases hp : preCond tr now r
  · rw [checkOne_pre_eq tr now r hp] at h
    rcases List.mem_cons.mp h with h1 | h1
    · exact Or.inr (by rw [h1])
    · exact Or.inl h1
  · by_cases hd : dueCond tr now r
    · rw [checkOne_due_eq tr now r hp hd] at h
      rcases List.mem_cons.mp h with h1 | h1
      · exact Or.inr (by rw [h1])
      · exact Or.inl h1
    · rw [checkOne_skip_eq tr now r hp hd] at h
      exact Or.inl h

theorem checkOne_count_le (tr : List Key) (now : Int) (r : Reminder) (k : Key) :
    countKey k (checkOne tr now r).2.2 ≤ 1 := by
  by_cases hp : preCond tr now r
  · rw [checkOne_pre_eq tr now r hp, countKey_singleton]
    split <;> simp
  · by_cases hd : dueCond tr now r
    · rw [checkOne_due_eq tr now r hp hd, countKey_singleton]
      split <;> simp
    · rw [checkOne_skip_eq tr now r hp hd, countKey_nil]
      simp

theorem checkOne_count_zero (tr : List Key) (now : Int) (r : Reminder) (k : Key)
    (h : k ∈ tr) : countKey k (checkOne tr now r).2.2 = 0 := by
  by_cases hp : preCond tr now r
  · rw [checkOne_pre_eq tr now r hp, countKey_singleton, keyOf_preDispatch]
    have hk : ((r.id, ThresholdKind.pre) : Key) ≠ k := fun he => hp.2.2.2 (he ▸ h)
    rw [if_neg hk]
  · by_cases hd : dueCond tr now r
    · rw [checkOne_due_eq tr now r hp hd, countKey_singleton, keyOf_dueDispatch]
      have hk : ((r.id, ThresholdKind.due) : Key) ≠ k := fun he => hd.2.2 (he ▸ h)
      rw [if_neg hk]
    · rw [checkOne_skip_eq tr now r hp hd, countKey_nil]

theorem checkOne_mem_iff (tr : List Key) (now : Int) (r : Reminder) (k : Key) :
    k ∈ (checkOne tr now r).2.1 ↔
      k ∈ tr ∨ 1 ≤ countKey k (checkOne tr now r).2.2 := by
  by_cases hp : preCond tr now r
  · rw [checkOne_pre_eq tr now r hp, countKey_singleton, keyOf_preDispatch]
    by_cases he : ((r.id, ThresholdKind.pre) : Key) = k
    · rw [if_pos he, ← he]
      simp [List.mem_cons]
    · rw [if_neg he]
      have he2 : k ≠ ((r.id, ThresholdKind.pre) : Key) := fun hh => he hh.symm
      simp [List.mem_cons, he2]
  · by_cases hd : dueCond tr now r
    · rw [checkOne_due_eq tr now r hp hd, countKey_singleton, keyOf_dueDispatch]
      by_cases he : ((r.id, ThresholdKind.due) : Key) = k
      · rw [if_pos he, ← he]
        simp [List.mem_cons]
      · rw [if_neg he]
        have he2 : k ≠ ((r.id, ThresholdKind.due) : Key) := fun hh => he hh.symm
        simp [List.mem_cons, he2]
    · rw [checkOne_skip_eq tr now r hp hd, countKey_nil]
      simp

theorem checkOne_dispatch_inv (tr : List Key) (now : Int) (r : Reminder)
    (d : Dispatch) (h : d ∈ (checkOne tr now r).2.2) :
    d.remId = r.id ∧ d.ackId = r.id ∧ d.notifTitle = r.title ∧
      keyOf d ∉ tr ∧ keyOf d ∈ (checkOne tr now r).2.1 ∧
      (d.threshold = ThresholdKind.pre →
        0 < r.dueAt - now ∧ r.dueAt - now ≤ 300000 ∧ r.notified = false ∧
        d.sound = SoundType.reminder ∧
        d.notifBody = "Reminder in 5 minutes: " ++ r.title ∧
        (checkOne tr now r).1.notified = true) ∧
      (d.threshold = ThresholdKind.due →
        -60000 < r.dueAt - now ∧ r.dueAt - now ≤ 0 ∧
        d.sound = SoundType.urgent ∧
        d.notifBody = "It's time: " ++ r.title ++ "!") := by
  by_cases hp : preCond tr now r
  · rw [checkOne_pre_eq tr now r hp] at h ⊢
    rw [List.mem_singleton] at h
    subst h
    refine ⟨rfl, rfl, rfl, ?_, ?_, ?_, ?_⟩
    · rw [keyOf_preDispatch]
      exact hp.2.2.2
    · rw [keyOf_preDispatch]
      exact List.mem_cons_self _ _
    · intro _
      exact ⟨hp.1, hp.2.1, hp.2.2.1, rfl, rfl, rfl⟩
    · intro hc
      simp [preDispatch] at hc
  · by_cases hd : dueCond tr now r
    · rw [checkOne_due_eq tr now r hp hd] at h ⊢
      rw [List.mem_singleton] at h
      subst h
      refine ⟨rfl, rfl, rfl, ?_, ?_, ?_, ?_⟩
      · rw [keyOf_dueDispatch]
        exact hd.2.2
      · rw [keyOf_dueDispatch]
        exact List.mem_cons_self _ _
      · intro hc
        simp [dueDispatch] at hc
      · intro _
        exact ⟨hd.1, hd.2.1, rfl, rfl⟩
    · rw [checkOne_skip_eq tr now r hp hd] at h
      cases h

theorem checkOne_keeps_notified (tr : List Key) (now : Int) (r : Reminder)
    (h : r.notified = true) : (checkOne tr now r).1 = r := by
  have hp : ¬ preCond tr now r := by
    intro hp
    rw [hp.2.2.1] at h
    cases h
  by_cases hd : dueCond tr now r
  · rw [checkOne_due_eq tr now r hp hd]
  · rw [checkOne_skip_eq tr now r hp hd]

theorem checkList_cons (now : Int) (tr : List Key) (r : Reminder) (rs : List Reminder) :
    checkList now tr (r :: rs) =
      ((checkOne tr now r).1 :: (checkList now (checkOne tr now r).2.1 rs).1,
        (checkList now (checkOne tr now r).2.1 rs).2.1,
        (checkOne tr now r).2.2 ++ (checkList now (checkOne tr now r).2.1 rs).2.2) := rfl

theorem checkList_ids (now : Int) (rs : List Reminder) : ∀ tr : List Key,
    (checkList now tr rs).1.map Reminder.id = rs.map Reminder.id := by
  induction rs with
  | nil => intro tr; rfl
  | cons r rs ih =>
    intro tr
    rw [checkList_cons]
    simp only [List.map_cons, checkOne_id, ih]

theorem checkList_tr_mono (now : Int) (rs : List Reminder) : ∀ (tr : List Key) (k : Key),
    k ∈ tr → k ∈ (checkList now tr rs).2.1 := by
  induction rs with
  | nil => intro tr k h; exact h
  | cons r rs ih =>
    intro tr k h
    rw [checkList_cons]
    exact ih _ k (checkOne_tr_mono tr now r k h)

theorem checkList_count (now : Int) (rs : List Reminder) : ∀ (tr : List Key) (k : Key),
    countKey k (checkList now tr rs).2.2 ≤ 1 ∧
      (k ∈ tr → countKey k (checkList now tr rs).2.2 = 0) ∧
      (k ∈ (checkList now tr rs).2.1 ↔
        k ∈ tr ∨ 1 ≤ countKey k (checkList now tr rs).2.2) := by
  induction rs with
  | nil =>
    intro tr k
    refine ⟨by simp [checkList, countKey_nil], fun _ => rfl, by simp [checkList, countKey_nil]⟩
  | cons r rs ih =>
    intro tr k
    rw [checkList_cons]
    simp only [countKey_append]
    obtain ⟨ih1, ih2, ih3⟩ := ih (checkOne tr now r).2.1 k
    have hle1 := checkOne_count_le tr now r k
    refine ⟨?_, ?_, ?_⟩
    · rcases Nat.eq_zero_or_pos (countKey k (checkOne tr now r).2.2) with h0 | h1
      · rw [h0]
        simpa using ih1
      · have hm : k ∈ (checkOne tr now r).2.1 :=
          (checkOne_mem_iff tr now r k).mpr (Or.inr h1)
        have h2 := ih2 hm
        omega
    · intro h
      have h1 := checkOne_count_zero tr now r k h
      have h2 := ih2 (checkOne_tr_mono tr now r k h)
      omega
    · rw [ih3, checkOne_mem_iff tr now r k]
      constructor
      · rintro ((h | h) | h)
        · exact Or.inl h
        · exact Or.inr (by omega)
        · exact Or.inr (by omega)
      · rintro (h | h)
        · exact Or.inl (Or.inl h)
        · have : 1 ≤ countKey k (checkOne tr now r).2.2 ∨
              1 ≤ countKey k (checkList now (checkOne tr now r).2.1 rs).2.2 := by omega
          rcases this with h1 | h1
          · exact Or.inl (Or.inr h1)
          · exact Or.inr h1

theorem checkList_dispatch_inv (now : Int) (rs : List Reminder) :
    ∀ (tr : List Key) (d : Dispatch), d ∈ (checkList now tr rs).2.2 →
    d.ackId = d.remId ∧ keyOf d ∈ (checkList now tr rs).2.1 ∧
      (∃ r ∈ rs, d.remId = r.id ∧ d.notifTitle = r.title ∧
        (d.threshold = ThresholdKind.pre →
          0 < r.dueAt - now ∧ r.dueAt - now ≤ 300000 ∧ r.notified = false ∧
          d.sound = SoundType.reminder ∧
          d.notifBody = "Reminder in 5 minutes: " ++ r.title) ∧
        (d.threshold = ThresholdKind.due →
          -60000 < r.dueAt - now ∧ r.dueAt - now ≤ 0 ∧
          d.sound = SoundType.urgent ∧
          d.notifBody = "It's time: " ++ r.title ++ "!")) ∧
      (d.threshold = ThresholdKind.pre →
        ∃ r2 ∈ (checkList now tr rs).1, r2.id = d.remId ∧ r2.notified = true) := by
  induction rs with
  | nil => intro tr d h; cases h
  | cons r rs ih =>
    intro tr d h
    rw [checkList_cons] at h ⊢
    rcases List.mem_append.mp h with h1 | h1
    · obtain ⟨ha, hb, hc, _, he, hf, hg⟩ := checkOne_dispatch_inv tr now r d h1
      refine ⟨by rw [ha, hb], ?_, ?_, ?_⟩
      · exact checkList_tr_mono now rs _ _ he
      · exact ⟨r, List.mem_cons_self _ _, ha, hc,
          fun ht => ⟨(hf ht).1, (hf ht).2.1, (hf ht).2.2.1,
            (hf ht).2.2.2.1, (hf ht).2.2.2.2.1⟩,
          fun ht => hg ht⟩
      · intro ht
        refine ⟨(checkOne tr now r).1, List.mem_cons_self _ _, ?_, (hf ht).2.2.2.2.2⟩
        rw [checkOne_id, ← ha]
    · obtain ⟨ha, hb, hc, hd⟩ := ih (checkOne tr now r).2.1 d h1
      refine ⟨ha, hb, ?_, ?_⟩
      · obtain ⟨r0, hr0, hprops⟩ := hc
        exact ⟨r0, List.mem_cons_of_mem _ hr0, hprops⟩
      · intro ht
        obtain ⟨r2, hr2, h2⟩ := hd ht
        exact ⟨r2, List.mem_cons_of_mem _ hr2, h2⟩

theorem checkList_pre_fires (now : Int) (rs : List Reminder) :
    ∀ (tr : List Key) (r : Reminder),
    (rs.map Reminder.id).Nodup → r ∈ rs →
    0 < r.dueAt - now → r.dueAt - now ≤ 300000 → r.notified = false →
    (r.id, ThresholdKind.pre) ∉ tr →
    preDispatch r ∈ (checkList now tr rs).2.2 := by
  induction rs with
  | nil => intro tr r _ hr; cases hr
  | cons r0 rs ih =>
    intro tr r hnd hr h1 h2 h3 h4
    rw [List.map_cons, List.nodup_cons] at hnd
    rw [checkList_cons]
    rcases List.mem_cons.mp hr with he | he
    · subst he
      rw [checkOne_pre_eq tr now r ⟨h1, h2, h3, h4⟩]
      exact List.mem_append.mpr (Or.inl (List.mem_singleton.mpr rfl))
    · have hid : r0.id ≠ r.id := by
        intro hq
        exact hnd.1 (hq ▸ List.mem_map.mpr ⟨r, he, rfl⟩)
      have hk2 : (r.id, ThresholdKind.pre) ∉ (checkOne tr now r0).2.1 := by
        intro hin
        rcases checkOne_tr_new tr now r0 _ hin with hin | hin
        · exact h4 hin
        · exact hid hin.symm
      exact List.mem_append.mpr (Or.inr (ih _ r hnd.2 he h1 h2 h3 hk2))

theorem checkList_due_fires (now : Int) (rs : List Reminder) :
    ∀ (tr : List Key) (r : Reminder),
    (rs.map Reminder.id).Nodup → r ∈ rs →
    -60000 < r.dueAt - now → r.dueAt - now ≤ 0 →
    (r.id, ThresholdKind.due) ∉ tr →
    dueDispatch r ∈ (checkList now tr rs).2.2 := by
  induction rs with
  | nil => intro tr r _ hr; cases hr
  | cons r0 rs ih =>
    intro tr r hnd hr h1 h2 h4
    rw [List.map_cons, List.nodup_cons] at hnd
    rw [checkList_cons]
    rcases List.mem_cons.mp hr with he | he
    · subst he
      have hp : ¬ preCond tr now r := by
        intro hp
        have := hp.1
        omega
      rw [checkOne_due_eq tr now r hp ⟨h1, h2, h4⟩]
      exact List.mem_append.mpr (Or.inl (List.mem_singleton.mpr rfl))
    · have hid : r0.id ≠ r.id := by
        intro hq
        exact hnd.1 (hq ▸ List.mem_map.mpr ⟨r, he, rfl⟩)
      have hk2 : (r.id, ThresholdKind.due) ∉ (checkOne tr now r0).2.1 := by
        intro hin
        rcases checkOne_tr_new tr now r0 _ hin with hin | hin
        · exact h4 hin
        · exact hid hin.symm
      exact List.mem_append.mpr (Or.inr (ih _ r hnd.2 he h1 h2 hk2))

theorem checkList_preserve (now : Int) (rs : List Reminder) :
    ∀ (tr : List Key), ∀ r ∈ rs, ∃ r2 ∈ (checkList now tr rs).1,
      r2.id = r.id ∧ (r.notified = true → r2 = r) := by
  induction rs with
  | nil => intro tr r hr; cases hr
  | cons r0 rs ih =>
    intro tr r hr
    rw [checkList_cons]
    rcases List.mem_cons.mp hr with he | he
    · subst he
      exact ⟨(checkOne tr now r).1, List.mem_cons_self _ _, checkOne_id tr now r,
        fun hn => by rw [checkOne_keeps_notified tr now r hn]⟩
    · obtain ⟨r2, hr2, h2⟩ := ih (checkOne tr now r0).2.1 r he
      exact ⟨r2, List.mem_cons_of_mem _ hr2, h2⟩

theorem checkList_no_pre_of_notified (now : Int) (rs : List Reminder) (tr : List Key)
    (i : Nat) (hnd : (rs.map Reminder.id).Nodup)
    (hex : ∃ r ∈ rs, r.id = i ∧ r.notified = true) :
    ∀ d ∈ (checkList now tr rs).2.2,
      ¬(d.remId = i ∧ d.threshold = ThresholdKind.pre) := by
  intro d hd hcontra
  obtain ⟨_, _, ⟨r0, hr0, hid0, _, hpre, _⟩, _⟩ :=
    checkList_dispatch_inv now rs tr d hd
  obtain ⟨r1, hr1, hi1, hn1⟩ := hex
  have he : r0 = r1 := by
    apply List.inj_on_of_nodup_map hnd hr0 hr1
    rw [← hid0, hcontra.1, hi1]
  have hfalse := (hpre hcontra.2).2.2.1
  rw [he, hn1] at hfalse
  cases hfalse

theorem tick_pre_iff (now : Int) (st : SchedState) (r : Reminder)
    (hnd : (st.reminders.map Reminder.id).Nodup) (hr : r ∈ st.reminders)
    (hn : r.notified = false) (hk : (r.id, ThresholdKind.pre) ∉ st.hasPlayedSound) :
    (∃ d ∈ (checkReminders now st).2, d.remId = r.id ∧
        d.threshold = ThresholdKind.pre ∧ d.sound = SoundType.reminder ∧
        d.notifBody = "Reminder in 5 minutes: " ++ r.title) ↔
      (0 < r.dueAt - now ∧ r.dueAt - now ≤ 300000) := by
  constructor
  · rintro ⟨d, hd, hid, ht, -, -⟩
    have hd2 : d ∈ (checkList now st.hasPlayedSound st.reminders).2.2 := hd
    obtain ⟨-, -, ⟨r0, hr0, hid0, -, hpre, -⟩, -⟩ :=
      checkList_dispatch_inv now st.reminders st.hasPlayedSound d hd2
    have he : r0 = r := by
      apply List.inj_on_of_nodup_map hnd hr0 hr
      rw [← hid0, hid]
    have h := hpre ht
    rw [he] at h
    exact ⟨h.1, h.2.1⟩
  · rintro ⟨h1, h2⟩
    exact ⟨preDispatch r,
      checkList_pre_fires now st.reminders st.hasPlayedSound r hnd hr h1 h2 hn hk,
      rfl, rfl, rfl, rfl⟩

theorem tick_due_iff (now : Int) (st : SchedState) (r : Reminder)
    (hnd : (st.reminders.map Reminder.id).Nodup) (hr : r ∈ st.reminders)
    (hk : (r.id, ThresholdKind.due) ∉ st.hasPlayedSound) :
    (∃ d ∈ (checkReminders now st).2, d.remId = r.id ∧
        d.threshold = ThresholdKind.due ∧ d.sound = SoundType.urgent ∧
        d.notifBody = "It's time: " ++ r.title ++ "!") ↔
      (-60000 < r.dueAt - now ∧ r.dueAt - now ≤ 0) := by
  constructor
  · rintro ⟨d, hd, hid, ht, -, -⟩
    have hd2 : d ∈ (checkList now st.hasPlayedSound st.reminders).2.2 := hd
    obtain ⟨-, -, ⟨r0, hr0, hid0, -, -, hdue⟩, -⟩ :=
      checkList_dispatch_inv now st.reminders st.hasPlayedSound d hd2
    have he : r0 = r := by
      apply List.inj_on_of_nodup_map hnd hr0 hr
      rw [← hid0, hid]
    have h := hdue ht
    rw [he] at h
    exact ⟨h.1, h.2.1⟩
  · rintro ⟨h1, h2⟩
    exact ⟨dueDispatch r,
      checkList_due_fires now st.reminders st.hasPlayedSound r hnd hr h1 h2 hk,
      rfl, rfl, rfl, rfl⟩

theorem runTicks_cons (st : SchedState) (t : Int) (ts : List Int) :
    runTicks st (t :: ts) =
      ((runTicks (checkReminders t st).1 ts).1,
        (checkReminders t st).2 :: (runTicks (checkReminders t st).1 ts).2) := rfl

theorem runTicks_ids (ts : List Int) : ∀ st : SchedState,
    (runTicks st ts).1.reminders.map Reminder.id = st.reminders.map Reminder.id := by
  induction ts with
  | nil => intro st; rfl
  | cons t ts ih =>
    intro st
    rw [runTicks_cons]
    rw [ih (checkReminders t st).1]
    exact checkList_ids t st.reminders st.hasPlayedSound

theorem runTicks_count (ts : List Int) : ∀ (st : SchedState) (k : Key),
    countKey k (runTicks st ts).2.flatten ≤ 1 ∧
      (k ∈ st.hasPlayedSound →
        countKey k (runTicks st ts).2.flatten = 0 ∧
          k ∈ (runTicks st ts).1.hasPlayedSound) := by
  induction ts with
  | nil =>
    intro st k
    exact ⟨by simp [runTicks, countKey_nil], fun h => ⟨by simp [runTicks, countKey_nil], h⟩⟩
  | cons t ts ih =>
    intro st k
    rw [runTicks_cons]
    simp only [List.flatten_cons, countKey_append]
    obtain ⟨c1le, c1zero, c1mem⟩ := checkList_count t st.reminders st.hasPlayedSound k
    obtain ⟨ihle, ihz⟩ := ih (checkReminders t st).1 k
    have hcle : countKey k (checkReminders t st).2 ≤ 1 := c1le
    refine ⟨?_, ?_⟩
    · rcases Nat.eq_zero_or_pos (countKey k (checkReminders t st).2) with h0 | h1
      · rw [h0]
        simpa using ihle
      · have hm : k ∈ (checkReminders t st).1.hasPlayedSound := c1mem.mpr (Or.inr h1)
        have h2 := (ihz hm).1
        omega
    · intro h
      have h1 : countKey k (checkReminders t st).2 = 0 := c1zero h
      have hm : k ∈ (checkReminders t st).1.hasPlayedSound := c1mem.mpr (Or.inl h)
      obtain ⟨h2, h3⟩ := ihz hm
      exact ⟨by omega, h3⟩

theorem runTicks_dispatch_origin (ts : List Int) : ∀ (st : SchedState) (d : Dispatch),
    d ∈ (runTicks st ts).2.flatten → ∃ r ∈ st.reminders, d.remId = r.id := by
  induction ts with
  | nil => intro st d h; simp [runTicks] at h
  | cons t ts ih =>
    intro st d h
    rw [runTicks_cons] at h
    rw [List.flatten_cons] at h
    rcases List.mem_append.mp h with h1 | h1
    · have hd2 : d ∈ (checkList t st.hasPlayedSound st.reminders).2.2 := h1
      obtain ⟨-, -, ⟨r0, hr0, hid0, -⟩, -⟩ :=
        checkList_dispatch_inv t st.reminders st.hasPlayedSound d hd2
      exact ⟨r0, hr0, hid0⟩
    · obtain ⟨r1, hr1, hid1⟩ := ih (checkReminders t st).1 d h1
      have hmem : r1.id ∈ st.reminders.map Reminder.id := by
        rw [← checkList_ids t st.reminders st.hasPlayedSound]
        exact List.mem_map.mpr ⟨r1, hr1, rfl⟩
      obtain ⟨r2, hr2, hid2⟩ := List.mem_map.mp hmem
      exact ⟨r2, hr2, by rw [hid1, hid2]⟩

theorem runTicks_no_pre_of_notified (ts : List Int) : ∀ (st : SchedState) (i : Nat),
    (st.reminders.map Reminder.id).Nodup →
    (∃ r ∈ st.reminders, r.id = i ∧ r.notified = true) →
    ∀ d ∈ (runTicks st ts).2.flatten,
      ¬(d.remId = i ∧ d.threshold = ThresholdKind.pre) := by
  induction ts with
  | nil => intro st i _ _ d h; simp [runTicks] at h
  | cons t ts ih =>
    intro st i hnd hex d h
    rw [runTicks_cons] at h
    rw [List.flatten_cons] at h
    rcases List.mem_append.mp h with h1 | h1
    · exact checkList_no_pre_of_notified t st.reminders st.hasPlayedSound i hnd hex d h1
    · have hnd2 : ((checkReminders t st).1.reminders.map Reminder.id).Nodup := by
        have he : (checkReminders t st).1.reminders.map Reminder.id =
            st.reminders.map Reminder.id :=
          checkList_ids t st.reminders st.hasPlayedSound
        rw [he]
        exact hnd
      have hex2 : ∃ r ∈ (checkReminders t st).1.reminders, r.id = i ∧ r.notified = true := by
        obtain ⟨r, hr, hi, hn⟩ := hex
        obtain ⟨r2, hr2, hid2, hkeep⟩ :=
          checkList_preserve t st.reminders st.hasPlayedSound r hr
        refine ⟨r2, hr2, by rw [hid2, hi], ?_⟩
        rw [hkeep hn]
        exact hn
      exact ih (checkReminders t st).1 i hnd2 hex2 d h1

theorem countRequests_append (a b : List NotifEffect) :
    countRequests (a ++ b) = countRequests a + countRequests b := by
  simp [countRequests, List.filter_append]

theorem sendNotification_default_count (g : Bool) (t b : String) :
    countRequests (sendNotification PermissionState.defaultPerm g t b) = 1 := by
  cases g <;> rfl

theorem notifyAll_default_count (g : Bool) (ds : List Dispatch) :
    countRequests (notifyAll PermissionState.defaultPerm g ds) = ds.length := by
  induction ds with
  | nil => rfl
  | cons d ds ih =>
    show countRequests (sendNotification PermissionState.defaultPerm g
      d.notifTitle d.notifBody ++ notifyAll PermissionState.defaultPerm g ds) = _
    rw [countRequests_append, sendNotification_default_count, ih, List.length_cons]
    omega

theorem notifyAll_denied (g : Bool) (ds : List Dispatch) :
    notifyAll PermissionState.denied g ds = [] := by
  induction ds with
  | nil => rfl
  | cons d ds ih =>
    show sendNotification PermissionState.denied g d.notifTitle d.notifBody ++
      notifyAll PermissionState.denied g ds = []
    rw [ih]
    rfl

/-- Claim C1, amended: for a cached reminder with `notified = false` and
unmarked PreAlert key, a tick at `now` dispatches the PreAlert (standard
chime, the "in 5 minutes" message) if and only if
`now ∈ [dueAt − 5min, dueAt)`, i.e. `0 < dueAt − now ≤ 300000` — the
source window is closed at `dueAt − 5min` and open at `dueAt`, not the
other way round — and across arbitrarily many ticks the PreAlert of that
reminder is dispatched at most once. -/
theorem claim_C1 (st : SchedState) (now : Int) (r : Reminder)
    (hnd : (st.reminders.map Reminder.id).Nodup) (hr : r ∈ st.reminders)
    (hn : r.notified = false)
    (hk : (r.id, ThresholdKind.pre) ∉ st.hasPlayedSound) :
    ((∃ d ∈ (checkReminders now st).2, d.remId = r.id ∧
        d.threshold = ThresholdKind.pre ∧ d.sound = SoundType.reminder ∧
        d.notifBody = "Reminder in 5 minutes: " ++ r.title) ↔
      (0 < r.dueAt - now ∧ r.dueAt - now ≤ 300000)) ∧
    ∀ ts : List Int,
      countKey (r.id, ThresholdKind.pre) (runTicks st ts).2.flatten ≤ 1 :=
  ⟨tick_pre_iff now st r hnd hr hn hk, fun ts => (runTicks_count ts st _).1⟩

/-- Witness for claim C1 at a concrete input: one reminder due at
400000ms, tick at 200000ms, fresh tracker. -/
theorem claim_C1_witness :
    ((((⟨[⟨1, "med", 400000, false, none⟩], []⟩ : SchedState)).reminders.map
        Reminder.id).Nodup ∧
      (⟨1, "med", 400000, false, none⟩ : Reminder) ∈
        (⟨[⟨1, "med", 400000, false, none⟩], []⟩ : SchedState).reminders ∧
      (⟨1, "med", 400000, false, none⟩ : Reminder).notified = false ∧
      ((⟨1, "med", 400000, false, none⟩ : Reminder).id, ThresholdKind.pre) ∉
        (⟨[⟨1, "med", 400000, false, none⟩], []⟩ : SchedState).hasPlayedSound) ∧
    (((∃ d ∈ (checkReminders 200000
          (⟨[⟨1, "med", 400000, false, none⟩], []⟩ : SchedState)).2,
        d.remId = (⟨1, "med", 400000, false, none⟩ : Reminder).id ∧
        d.threshold = ThresholdKind.pre ∧ d.sound = SoundType.reminder ∧
        d.notifBody = "Reminder in 5 minutes: " ++
          (⟨1, "med", 400000, false, none⟩ : Reminder).title) ↔
      (0 < (⟨1, "med", 400000, false, none⟩ : Reminder).dueAt - 200000 ∧
        (⟨1, "med", 400000, false, none⟩ : Reminder).dueAt - 200000 ≤ 300000)) ∧
    ∀ ts : List Int,
      countKey ((⟨1, "med", 400000, false, none⟩ : Reminder).id, ThresholdKind.pre)
        (runTicks (⟨[⟨1, "med", 400000, false, none⟩], []⟩ : SchedState) ts).2.flatten ≤ 1) :=
  ⟨⟨by decide, by decide, rfl, by decide⟩,
    claim_C1 (⟨[⟨1, "med", 400000, false, none⟩], []⟩ : SchedState) 200000
      (⟨1, "med", 400000, false, none⟩ : Reminder)
      (by decide) (by decide) rfl (by decide)⟩

/-- Claim C1 fails as stated: at `now = dueAt = 300000` the claimed
window `(dueAt − 5min, dueAt]` contains `now`, the reminder is
unnotified with an unmarked PreAlert key, yet the tick dispatches no
PreAlert — the DueAlert branch fires instead. -/
theorem claim_C1_counterexample :
    specPreWindow 300000 300000 ∧
    (⟨7, "a", 300000, false, none⟩ : Reminder).notified = false ∧
    (checkReminders 300000
        (⟨[⟨7, "a", 300000, false, none⟩], []⟩ : SchedState)).2.map keyOf =
      [(7, ThresholdKind.due)] := by
  decide

/-- Claim C2, amended: for a cached reminder with unmarked DueAlert key,
a tick at `now` dispatches the DueAlert (urgent sound, the "time now"
message) if and only if `now ∈ [dueAt, dueAt + 1min)`, i.e.
`−60000 < dueAt − now ≤ 0` — the source window is closed at `dueAt` and
open at `dueAt + 1min`, not the other way round.  The equivalence
assumes nothing about `notified` or the PreAlert key, so the dispatch is
independent of whether the PreAlert ever fired; across arbitrarily many
ticks the DueAlert is dispatched at most once. -/
theorem claim_C2 (st : SchedState) (now : Int) (r : Reminder)
    (hnd : (st.reminders.map Reminder.id).Nodup) (hr : r ∈ st.reminders)
    (hk : (r.id, ThresholdKind.due) ∉ st.hasPlayedSound) :
    ((∃ d ∈ (checkReminders now st).2, d.remId = r.id ∧
        d.threshold = ThresholdKind.due ∧ d.sound = SoundType.urgent ∧
        d.notifBody = "It's time: " ++ r.title ++ "!") ↔
      (-60000 < r.dueAt - now ∧ r.dueAt - now ≤ 0)) ∧
    ∀ ts : List Int,
      countKey (r.id, ThresholdKind.due) (runTicks st ts).2.flatten ≤ 1 :=
  ⟨tick_due_iff now st r hnd hr hk, fun ts => (runTicks_count ts st _).1⟩

/-- Witness for claim C2 at a concrete input: a reminder already
notified, with its PreAlert key marked, due at 0ms; tick at 30000ms. -/
theorem claim_C2_witness :
    ((((⟨[⟨2, "x", 0, true, none⟩], [(2, ThresholdKind.pre)]⟩ : SchedState)).reminders.map
        Reminder.id).Nodup ∧
      (⟨2, "x", 0, true, none⟩ : Reminder) ∈
        (⟨[⟨2, "x", 0, true, none⟩], [(2, ThresholdKind.pre)]⟩ : SchedState).reminders ∧
      ((⟨2, "x", 0, true, none⟩ : Reminder).id, ThresholdKind.due) ∉
        (⟨[⟨2, "x", 0, true, none⟩], [(2, ThresholdKind.pre)]⟩ : SchedState).hasPlayedSound) ∧
    (((∃ d ∈ (checkReminders 30000
          (⟨[⟨2, "x", 0, true, none⟩], [(2, ThresholdKind.pre)]⟩ : SchedState)).2,
        d.remId = (⟨2, "x", 0, true, none⟩ : Reminder).id ∧
        d.threshold = ThresholdKind.due ∧ d.sound = SoundType.urgent ∧
        d.notifBody = "It's time: " ++ (⟨2, "x", 0, true, none⟩ : Reminder).title ++ "!") ↔
      (-60000 < (⟨2, "x", 0, true, none⟩ : Reminder).dueAt - 30000 ∧
        (⟨2, "x", 0, true, none⟩ : Reminder).dueAt - 30000 ≤ 0)) ∧
    ∀ ts : List Int,
      countKey ((⟨2, "x", 0, true, none⟩ : Reminder).id, ThresholdKind.due)
        (runTicks (⟨[⟨2, "x", 0, true, none⟩], [(2, ThresholdKind.pre)]⟩ : SchedState)
          ts).2.flatten ≤ 1) :=
  ⟨⟨by decide, by decide, by decide⟩,
    claim_C2 (⟨[⟨2, "x", 0, true, none⟩], [(2, ThresholdKind.pre)]⟩ : SchedState) 30000
      (⟨2, "x", 0, true, none⟩ : Reminder)
      (by decide) (by decide) (by decide)⟩

/-- Claim C2 fails as stated: at `now = dueAt = 300000` the claimed
window `(dueAt, dueAt + 1min]` excludes `now`, yet the tick dispatches
the DueAlert. -/
theorem claim_C2_counterexample :
    ¬ specDueWindow 300000 300000 ∧
    (checkReminders 300000
        (⟨[⟨9, "b", 300000, false, none⟩], []⟩ : SchedState)).2.map keyOf =
      [(9, ThresholdKind.due)] := by
  decide

/-- Claim C3: once an idempotency key is in the tracker, every
subsequent tick dispatches nothing for that key (and so also issues no
`PUT /reminders/{id}/notify` acknowledgement for it, since the
acknowledgement call is made only inside a dispatching branch), and the
key stays marked; moreover from any state at most one dispatch per key
occurs across any sequence of ticks. -/
theorem claim_C3 (st : SchedState) (k : Key) (h : k ∈ st.hasPlayedSound) :
    (∀ ts : List Int,
      countKey k (runTicks st ts).2.flatten = 0 ∧
        k ∈ (runTicks st ts).1.hasPlayedSound) ∧
    ∀ (st2 : SchedState) (ts : List Int),
      countKey k (runTicks st2 ts).2.flatten ≤ 1 :=
  ⟨fun ts => (runTicks_count ts st k).2 h,
   fun st2 ts => (runTicks_count ts st2 k).1⟩

/-- Witness for claim C3 at a concrete input: the PreAlert key of
reminder 3 is already marked. -/
theorem claim_C3_witness :
    ((3, ThresholdKind.pre) ∈
      (⟨[⟨3, "t", 500000, false, none⟩], [(3, ThresholdKind.pre)]⟩ : SchedState).hasPlayedSound) ∧
    ((∀ ts : List Int,
      countKey (3, ThresholdKind.pre)
          (runTicks (⟨[⟨3, "t", 500000, false, none⟩], [(3, ThresholdKind.pre)]⟩ : SchedState)
            ts).2.flatten = 0 ∧
        (3, ThresholdKind.pre) ∈
          (runTicks (⟨[⟨3, "t", 500000, false, none⟩], [(3, ThresholdKind.pre)]⟩ : SchedState)
            ts).1.hasPlayedSound) ∧
    ∀ (st2 : SchedState) (ts : List Int),
      countKey (3, ThresholdKind.pre) (runTicks st2 ts).2.flatten ≤ 1) :=
  ⟨by decide,
    claim_C3 (⟨[⟨3, "t", 500000, false, none⟩], [(3, ThresholdKind.pre)]⟩ : SchedState)
      (3, ThresholdKind.pre) (by decide)⟩

/-- Claim C4, amended: every dispatch of a tick carries the remote
acknowledgement for its reminder's id and leaves its idempotency key
marked in the tracker, with the threshold's own sound; but the cached
`notified` flag is set to `true` only by a PreAlert dispatch — a
DueAlert dispatch leaves the cached `notified` field unchanged (see the
counterexample). -/
theorem claim_C4 (now : Int) (st : SchedState) :
    ∀ d ∈ (checkReminders now st).2,
      d.ackId = d.remId ∧
      (d.remId, d.threshold) ∈ (checkReminders now st).1.hasPlayedSound ∧
      (d.threshold = ThresholdKind.pre → d.sound = SoundType.reminder ∧
        ∃ r2 ∈ (checkReminders now st).1.reminders,
          r2.id = d.remId ∧ r2.notified = true) ∧
      (d.threshold = ThresholdKind.due → d.sound = SoundType.urgent) := by
  intro d hd
  have hd2 : d ∈ (checkList now st.hasPlayedSound st.reminders).2.2 := hd
  obtain ⟨ha, hb, ⟨r0, hr0, hid0, hti, hpre, hdue⟩, hc⟩ :=
    checkList_dispatch_inv now st.reminders st.hasPlayedSound d hd2
  refine ⟨ha, hb, ?_, ?_⟩
  · intro ht
    exact ⟨(hpre ht).2.2.2.1, hc ht⟩
  · intro ht
    exact (hdue ht).2.2.1

/-- Witness for claim C4 at a concrete input: the PreAlert dispatch of
reminder 1 fired by a tick at 0ms. -/
theorem claim_C4_witness :
    preDispatch (⟨1, "a", 100000, false, none⟩ : Reminder) ∈
      (checkReminders 0 (⟨[⟨1, "a", 100000, false, none⟩], []⟩ : SchedState)).2 ∧
    ((preDispatch (⟨1, "a", 100000, false, none⟩ : Reminder)).ackId =
        (preDispatch (⟨1, "a", 100000, false, none⟩ : Reminder)).remId ∧
      ((preDispatch (⟨1, "a", 100000, false, none⟩ : Reminder)).remId,
          (preDispatch (⟨1, "a", 100000, false, none⟩ : Reminder)).threshold) ∈
        (checkReminders 0 (⟨[⟨1, "a", 100000, false, none⟩], []⟩ : SchedState)).1.hasPlayedSound ∧
      ((preDispatch (⟨1, "a", 100000, false, none⟩ : Reminder)).threshold = ThresholdKind.pre →
        (preDispatch (⟨1, "a", 100000, false, none⟩ : Reminder)).sound = SoundType.reminder ∧
        ∃ r2 ∈ (checkReminders 0
            (⟨[⟨1, "a", 100000, false, none⟩], []⟩ : SchedState)).1.reminders,
          r2.id = (preDispatch (⟨1, "a", 100000, false, none⟩ : Reminder)).remId ∧
            r2.notified = true) ∧
      ((preDispatch (⟨1, "a", 100000, false, none⟩ : Reminder)).threshold = ThresholdKind.due →
        (preDispatch (⟨1, "a", 100000, false, none⟩ : Reminder)).sound = SoundType.urgent)) :=
  ⟨by decide,
    claim_C4 0 (⟨[⟨1, "a", 100000, false, none⟩], []⟩ : SchedState)
      (preDispatch (⟨1, "a", 100000, false, none⟩ : Reminder)) (by decide)⟩

/-- Claim C4 fails as stated: a tick at `now = dueAt = 0` dispatches the
DueAlert of reminder 1, yet the cached `notified` field stays `false` —
the DueAlert branch of the source never sets `reminder.notified`. -/
theorem claim_C4_counterexample :
    (checkReminders 0 (⟨[⟨1, "x", 0, false, none⟩], []⟩ : SchedState)).2.map keyOf =
      [(1, ThresholdKind.due)] ∧
    (checkReminders 0 (⟨[⟨1, "x", 0, false, none⟩], []⟩ : SchedState)).1.reminders.map
        Reminder.notified = [false] := by
  decide

/-- Claim C5, amended: the scenario's reminder must be due at
`now + 5min` (not `now + 4min`, at which the first tick would already be
past due): for reminder `{id 1, dueAt 300000}` and a fresh tracker, the
tick at 270000ms (4min30s) dispatches exactly the PreAlert with the
standard chime, the tick at 280000ms (4min40s) dispatches nothing, and
the tick at 301000ms (4min61s, past due) dispatches exactly the DueAlert
with the urgent sound. -/
theorem claim_C5 :
    (runTicks (⟨[⟨1, "m", 300000, false, none⟩], []⟩ : SchedState)
        [270000, 280000, 301000]).2.map
        (fun ds => ds.map (fun d => (d.remId, d.threshold, d.sound))) =
      [[(1, ThresholdKind.pre, SoundType.reminder)], [],
        [(1, ThresholdKind.due, SoundType.urgent)]] := by
  decide

/-- Claim C5 fails as stated: with `dueAt = now + 4min = 240000` the
tick at `now + 4min30s = 270000` is 30s past due, so it dispatches the
DueAlert, not the PreAlert, and the later ticks at 280000 and 301000
dispatch nothing at all. -/
theorem claim_C5_counterexample :
    (runTicks (⟨[⟨1, "m", 240000, false, none⟩], []⟩ : SchedState)
        [270000, 280000, 301000]).2.map (fun ds => ds.map keyOf) =
      [[(1, ThresholdKind.due)], [], []] := by
  decide

/-- Claim C6: deleting a reminder removes it from the cache and removes
both of its idempotency keys from the tracker, and afterwards no tick of
any subsequent run ever dispatches any alert for that reminder id —
whether deletion happened before any threshold fired or after the
PreAlert fired. -/
theorem claim_C6 (st : SchedState) (i : Nat) :
    ((i, ThresholdKind.pre) ∉ (deleteReminder i st).hasPlayedSound) ∧
    ((i, ThresholdKind.due) ∉ (deleteReminder i st).hasPlayedSound) ∧
    (∀ r ∈ (deleteReminder i st).reminders, r.id ≠ i) ∧
    ∀ ts : List Int, ∀ d ∈ (runTicks (deleteReminder i st) ts).2.flatten,
      d.remId ≠ i := by
  refine ⟨?_, ?_, ?_, ?_⟩
  · intro h
    have h2 := (List.mem_filter.mp h).2
    simp at h2
  · intro h
    have h2 := (List.mem_filter.mp h).2
    simp at h2
  · intro r hr
    have h2 := (List.mem_filter.mp hr).2
    simpa using h2
  · intro ts d hd he
    obtain ⟨r, hr, hid⟩ := runTicks_dispatch_origin ts (deleteReminder i st) d hd
    have h2 := (List.mem_filter.mp hr).2
    simp only [decide_eq_true_eq] at h2
    rw [he] at hid
    exact h2 hid.symm

/-- Claim C7 fails as stated: with permission still `"default"`, a
single tick dispatching two reminders' alerts invokes
`Notification.requestPermission()` twice — `sendNotification` requests
the permission on every alert, with no once-per-session guard. -/
theorem claim_C7_counterexample :
    ¬ countRequests (notifyAll PermissionState.defaultPerm false
        (checkReminders 0
          (⟨[⟨1, "a", 100000, false, none⟩, ⟨2, "b", 100000, false, none⟩],
            []⟩ : SchedState)).2) ≤ 1 := by
  decide

/-- Claim C7, amended: only the startup `requestNotificationPermission`
path is a one-shot request (at most one invocation); `sendNotification`
issues exactly one permission request per alert while the permission
state is `Default`, so a session dispatching `n` alerts in that state
issues `n` requests, not at most one. -/
theorem claim_C7 :
    (∀ (g : Bool) (t b : String),
      countRequests (sendNotification PermissionState.defaultPerm g t b) = 1) ∧
    (∀ p : PermissionState,
      countRequests (requestNotificationPermission p) ≤ 1) ∧
    ∀ (g : Bool) (ds : List Dispatch),
      countRequests (notifyAll PermissionState.defaultPerm g ds) = ds.length := by
  refine ⟨sendNotification_default_count, ?_, notifyAll_default_count⟩
  intro p
  cases p <;> simp [requestNotificationPermission, countRequests]

/-- Claim C8: when the permission state is `denied`, the notification
layer produces no effect at all — no desktop notification is created and
no permission request is issued — for any alert of any tick, while the
sound dispatch of every in-window threshold still occurs: the tick's
dispatch decision (`checkReminders`) and the sounds it plays never
consult the permission state, and each dispatched alert's sound is among
the tick's sound calls. -/
theorem claim_C8 (g : Bool) (now : Int) (st : SchedState) :
    notifyAll PermissionState.denied g (checkReminders now st).2 = [] ∧
    (∀ t b : String, sendNotification PermissionState.denied g t b = []) ∧
    ∀ d ∈ (checkReminders now st).2,
      d.sound ∈ (checkReminders now st).2.map Dispatch.sound :=
  ⟨notifyAll_denied g _, fun _ _ => rfl,
   fun d hd => List.mem_map.mpr ⟨d, hd, rfl⟩⟩

/-- Claim C9: for every alert type and every audio environment,
`playNotificationSound` attempts the pre-encoded fallback sample exactly
once when the synthesis path throws (and never otherwise), and always
returns normally — no exception propagates to the caller even when the
fallback also fails. -/
theorem claim_C9 (env : AudioEnv) (ty : SoundType) :
    (playNotificationSound env ty).2 = Except.ok () ∧
    countFallback (playNotificationSound env ty).1 =
      (if env.contextAvailable && !env.synthThrows then 0 else 1) := by
  rcases env with ⟨ca, sth, fb⟩
  cases ca <;> cases sth <;> cases fb <;> cases ty <;> exact ⟨rfl, rfl⟩

/-- Claim C10: a cached reminder whose `notified` field is already
`true` never receives a PreAlert on any tick of any run — the flag gates
only the PreAlert branch — while its DueAlert is still dispatched
exactly when a tick lands in the due window and its DueAlert key is
unmarked. -/
theorem claim_C10 (st : SchedState) (r : Reminder)
    (hnd : (st.reminders.map Reminder.id).Nodup) (hr : r ∈ st.reminders)
    (hn : r.notified = true) :
    (∀ ts : List Int, ∀ d ∈ (runTicks st ts).2.flatten,
      ¬(d.remId = r.id ∧ d.threshold = ThresholdKind.pre)) ∧
    ∀ now : Int, (r.id, ThresholdKind.due) ∉ st.hasPlayedSound →
      ((∃ d ∈ (checkReminders now st).2, d.remId = r.id ∧
          d.threshold = ThresholdKind.due ∧ d.sound = SoundType.urgent ∧
          d.notifBody = "It's time: " ++ r.title ++ "!") ↔
        (-60000 < r.dueAt - now ∧ r.dueAt - now ≤ 0)) :=
  ⟨fun ts => runTicks_no_pre_of_notified ts st r.id hnd ⟨r, hr, rfl, hn⟩,
   fun now hk => tick_due_iff now st r hnd hr hk⟩

/-- Witness for claim C10 at a concrete input: reminder 4 cached with
`notified = true` and a fresh tracker. -/
theorem claim_C10_witness :
    ((((⟨[⟨4, "n", 0, true, none⟩], []⟩ : SchedState)).reminders.map Reminder.id).Nodup ∧
      (⟨4, "n", 0, true, none⟩ : Reminder) ∈
        (⟨[⟨4, "n", 0, true, none⟩], []⟩ : SchedState).reminders ∧
      (⟨4, "n", 0, true, none⟩ : Reminder).notified = true) ∧
    ((∀ ts : List Int, ∀ d ∈
        (runTicks (⟨[⟨4, "n", 0, true, none⟩], []⟩ : SchedState) ts).2.flatten,
      ¬(d.remId = (⟨4, "n", 0, true, none⟩ : Reminder).id ∧
          d.threshold = ThresholdKind.pre)) ∧
    ∀ now : Int,
      ((⟨4, "n", 0, true, none⟩ : Reminder).id, ThresholdKind.due) ∉
          (⟨[⟨4, "n", 0, true, none⟩], []⟩ : SchedState).hasPlayedSound →
      ((∃ d ∈ (checkReminders now (⟨[⟨4, "n", 0, true, none⟩], []⟩ : SchedState)).2,
          d.remId = (⟨4, "n", 0, true, none⟩ : Reminder).id ∧
          d.threshold = ThresholdKind.due ∧ d.sound = SoundType.urgent ∧
          d.notifBody = "It's time: " ++ (⟨4, "n", 0, true, none⟩ : Reminder).title ++ "!") ↔
        (-60000 < (⟨4, "n", 0, true, none⟩ : Reminder).dueAt - now ∧
          (⟨4, "n", 0, true, none⟩ : Reminder).dueAt - now ≤ 0))) :=
  ⟨⟨by decide, by decide, rfl⟩,
    claim_C10 (⟨[⟨4, "n", 0, true, none⟩], []⟩ : SchedState)
      (⟨4, "n", 0, true, none⟩ : Reminder) (by decide) (by decide) rfl⟩

end MedKit
